import Mathlib

/-!
Verification of the GIMP MCP command bridge.

The repository contains two host-side bridge variants and two
controller-side connection managers:

* `gimp-mcp-plugin.py` — newer plugin: `MCPPlugin._handle_client`
  (single-shot framing) and `MCPPlugin.execute_command` (context
  injection by `image_id`, dotted-path resolution skipping the first
  segment, result serialization keyed on attribute `id`, error
  responses under field `error`).
* `gimp-mcp-server.py` — older plugin: `MCPPlugin.handle_client`
  (whole-buffer framing loop) and `MCPPlugin.execute_command`
  (dotted-path resolution over all segments, serialization keyed on
  attribute `ID`, error responses under field `message`).
* `src/gimp_mcp/server.py` and `server.py` — controller side:
  `GimpConnection.send_command` (new variant with a `finally` that
  closes the socket; old variant that discards the socket on both
  paths).

The embedding below models Python values, attribute lookup, dotted-path
splitting, the dispatcher, the serializers, the per-connection handlers
and the controller-side exchange, each translated from the source file
named above it.
-/

/-- Declared signature of a callable in the host object graph:
its name and the list of declared parameter names, as exposed by
`inspect.signature(current).parameters`. -/
structure FuncSig where
  fname : String
  params : List String
deriving DecidableEq

/-- Python-ish runtime values as they flow through the bridge.
`obj` is a host-side object carrying a class name, an optional callable
signature (a class or function is both attribute-bearing and callable),
and named attributes.  `float` carries the decimal literal of the
number; the bridge never computes with floats, it only converts them
to strings, so the literal is all the code observes. -/
inductive Value where
  | null
  | bool (b : Bool)
  | int (n : Int)
  | float (lit : String)
  | str (s : String)
  | list (xs : List Value)
  | dict (kvs : List (String × Value))
  | obj (className : String) (sig : Option FuncSig) (attrs : List (String × Value))

/-- First-match lookup in an association list (Python dict keys are
unique, so first-match agrees with dict lookup). -/
def kwGet (kvs : List (String × Value)) (k : String) : Option Value :=
  (kvs.find? (fun p => p.1 == k)).map (fun p => p.2)

/-- `del d[k]` on a Python dict: the key is removed. -/
def kwRemove (kvs : List (String × Value)) (k : String) : List (String × Value) :=
  kvs.filter (fun p => !(p.1 == k))

/-- Python `getattr(v, name)` restricted to the attributes the host
graph exposes: only `obj` values carry named attributes. -/
def pyGetattr : Value → String → Option Value
  | Value.obj _ _ attrs, name => kwGet attrs name
  | _, _ => none

/-- Python `hasattr(v, name)`. -/
def pyHasattr (v : Value) (name : String) : Bool :=
  (pyGetattr v name).isSome

/-- Attribute read guarded by `hasattr` in the source; the default is
never reached under that guard. -/
def pyGetattrD (v : Value) (name : String) : Value :=
  (pyGetattr v name).getD Value.null

/-- `d.get(k, default)` on a Python dict value; on a non-dict the
source never calls this without the value being a dict. -/
def pyDictGet : Value → String → Option Value
  | Value.dict kvs, k => kwGet kvs k
  | _, _ => none

/-- `d.get(k, default)` with a default. -/
def pyDictGetD (v : Value) (k : String) (dflt : Value) : Value :=
  (pyDictGet v k).getD dflt

/-- Python truthiness (`if x:`): `None`, `False`, zero, and empty
containers are falsy.  A float literal is falsy exactly when it writes
zero; the bridge only ever tests truthiness of `image_id`, an integer
handle, so the float clause is never load-bearing. -/
def truthy : Value → Bool
  | Value.null => false
  | Value.bool b => b
  | Value.int n => n != 0
  | Value.float lit => !(lit == "0.0" || lit == "-0.0" || lit == "0")
  | Value.str s => !(s == "")
  | Value.list xs => !xs.isEmpty
  | Value.dict kvs => !kvs.isEmpty
  | Value.obj _ _ _ => true

/-- Python `str(v)`, modelling exactly what the claims exercise:
scalars render as Python renders them (`str(None) = "None"`,
`str(True) = "True"`, `str(42) = "42"`, `str(3.14) = "3.14"`,
`str("text") = "text"`).  Containers and objects are rendered
opaquely — their exact text (e.g. the memory address inside an object
repr) is environment-dependent and no claim depends on it, only on the
result being a string. -/
def pyStr : Value → String
  | Value.null => "None"
  | Value.bool true => "True"
  | Value.bool false => "False"
  | Value.int n => toString n
  | Value.float lit => lit
  | Value.str s => s
  | Value.list _ => "<list repr>"
  | Value.dict _ => "<dict repr>"
  | Value.obj c _ _ => "<" ++ c ++ " object>"

/-- Python class name, as `obj.__class__.__name__` yields it. -/
def pyClassName : Value → String
  | Value.null => "NoneType"
  | Value.bool _ => "bool"
  | Value.int _ => "int"
  | Value.float _ => "float"
  | Value.str _ => "str"
  | Value.list _ => "list"
  | Value.dict _ => "dict"
  | Value.obj c _ _ => c

/-- Python `s.split(sep)` for a one-character separator, on the
character list: splitting the empty string yields `[""]`, adjacent
separators yield empty segments, exactly as `str.split(".")` does. -/
def splitDotChars : List Char → List String
  | [] => [""]
  | c :: rest =>
    if c = Char.ofNat 46 then "" :: splitDotChars rest
    else
      match splitDotChars rest with
      | h :: t => (String.singleton c ++ h) :: t
      | [] => [String.singleton c]

/-- `api_path.split(".")`. -/
def pySplitDot (s : String) : List String :=
  splitDotChars s.data

/-- The attribute walk shared by both resolver variants:
`for part in segs: current = getattr(current, part)`; a missing
attribute raises `AttributeError`, whose message names the failing
attribute — modelled by returning that segment name as the error. -/
def resolveSegs : Value → List String → Except String Value
  | cur, [] => Except.ok cur
  | cur, s :: rest =>
    match pyGetattr cur s with
    | some nxt => resolveSegs nxt rest
    | none => Except.error s

/-- `gimp-mcp-plugin.py` line 141: `for part in api_path.split(".")[1:]`
— the first segment (the implicit root) is discarded. -/
def resolvePath (root : Value) (api_path : String) : Except String Value :=
  resolveSegs root ((pySplitDot api_path).drop 1)

/-- `gimp-mcp-server.py` line 98: `for part in api_path.split(".")`
— every segment, the first included, is looked up. -/
def resolvePathSrv (root : Value) (api_path : String) : Except String Value :=
  resolveSegs root (pySplitDot api_path)

/-- `gimp-mcp-plugin.py` `serialize_gimp_object` (lines 173-178):
an element whose class is literally named `Image` becomes
`{id, type}` (the id read by `Gimp.Image.get_id`, modelled as the
object's `id` attribute); every other element becomes `str(obj)`. -/
def serialize_gimp_object (v : Value) : Value :=
  if pyClassName v == "Image" then
    Value.dict [("id", pyGetattrD v "id"), ("type", Value.str (pyClassName v))]
  else Value.str (pyStr v)

/-- `gimp-mcp-plugin.py` lines 153-159, the result serialization in
`execute_command`: `hasattr(result, "id")` first, then the list
branch, then `str(result)` for everything else. -/
def serializeResult (result : Value) : Value :=
  if pyHasattr result "id" then Value.dict [("id", pyGetattrD result "id")]
  else
    match result with
    | Value.list xs => Value.list (xs.map serialize_gimp_object)
    | r => Value.str (pyStr r)

/-- `gimp-mcp-server.py` `serialize_gimp_object` (lines 123-127):
keyed on attribute `ID` (uppercase), emitting it under lowercase
`id` with a `type` tag. -/
def serialize_gimp_object_srv (v : Value) : Value :=
  if pyHasattr v "ID" then
    Value.dict [("id", pyGetattrD v "ID"), ("type", Value.str (pyClassName v))]
  else Value.str (pyStr v)

/-- `gimp-mcp-server.py` lines 104-110: `hasattr(result, "ID")`
(uppercase) first, then the list branch, then `str(result)`. -/
def serializeResultSrv (result : Value) : Value :=
  if pyHasattr result "ID" then Value.dict [("id", pyGetattrD result "ID")]
  else
    match result with
    | Value.list xs => Value.list (xs.map serialize_gimp_object_srv)
    | r => Value.str (pyStr r)

/-- A recorded invocation of the resolved callable: its signature and
the positional and keyword arguments actually passed. -/
structure CallEvent where
  sig : FuncSig
  args : List Value
  kwargs : List (String × Value)

/-- The host collaborators `execute_command` depends on:
the root namespace object (`Gimp`), the context lookup
`Gimp.Image.get_by_id`, and the invocation semantics of host
callables (`current(*args, **kwargs)`), which may raise — an
`Except.error` carries `str(e)` of the raised exception. -/
structure Ctx where
  root : Value
  getById : Value → Value
  call : FuncSig → List Value → List (String × Value) → Except String Value

/-- Success response of `gimp-mcp-plugin.py` line 162 and
`gimp-mcp-server.py` line 112: `{"status": "success", "result": r}`. -/
def okResp (r : Value) : Value :=
  Value.dict [("status", Value.str "success"), ("result", r)]

/-- Error response of `gimp-mcp-plugin.py` lines 167-171: the message
under field `error`, plus a `traceback` field; `traceback.format_exc()`
is modelled by the message it reports. -/
def errResp (e : String) : Value :=
  Value.dict [("status", Value.str "error"), ("error", Value.str e),
    ("traceback", Value.str e)]

/-- `gimp-mcp-plugin.py` `execute_command`, lines 133-171, taking the
request fields already extracted by the total `get` calls of lines
120-129.  Besides the response it returns the list of invocations of
the resolved callable that actually happened (empty when the callable
was never invoked). -/
def execute_command (ctx : Ctx) (api_path : String) (args : List Value)
    (kwargs : List (String × Value)) : Value × List CallEvent :=
  -- lines 133-137: image = None; if kwargs.get("image_id"): resolve and delete
  let idv := (kwGet kwargs "image_id").getD Value.null
  let image := if truthy idv then ctx.getById idv else Value.null
  let kwargs1 := if truthy idv then kwRemove kwargs "image_id" else kwargs
  -- lines 139-142: the walk, skipping the first segment
  match resolvePath ctx.root api_path with
  | Except.error part => (errResp part, [])
  | Except.ok current =>
    match current with
    | Value.obj _ (some sig) _ =>
      -- lines 145-149: callable branch
      if "image" ∈ sig.params then
        match args with
        | [] =>
          -- args[0] = image on an empty list raises IndexError
          (errResp "list assignment index out of range", [])
        | _ :: rest =>
          match ctx.call sig (image :: rest) kwargs1 with
          | Except.ok r => (okResp (serializeResult r), [⟨sig, image :: rest, kwargs1⟩])
          | Except.error e => (errResp e, [⟨sig, image :: rest, kwargs1⟩])
      else
        match ctx.call sig args kwargs1 with
        | Except.ok r => (okResp (serializeResult r), [⟨sig, args, kwargs1⟩])
        | Except.error e => (errResp e, [⟨sig, args, kwargs1⟩])
    | v =>
      -- lines 150-151: non-callable — the value itself is the result
      (okResp (serializeResult v), [])

/-- The collaborators of the older `gimp-mcp-server.py`
`execute_command`: root namespace and invocation semantics (this
variant performs no context injection). -/
structure CtxSrv where
  root : Value
  call : FuncSig → List Value → List (String × Value) → Except String Value

/-- Error response of `gimp-mcp-server.py` line 118: the message under
field `message`, plus a `traceback` field. -/
def excResp (e : String) : Value :=
  Value.dict [("status", Value.str "error"), ("message", Value.str e),
    ("traceback", Value.str e)]

/-- Error response of `gimp-mcp-server.py` line 115 for an unrecognized
command type: message under field `message`, no traceback. -/
def unknownResp (cmdType : Value) : Value :=
  Value.dict [("status", Value.str "error"),
    ("message", Value.str ("Unknown command: " ++ pyStr cmdType))]

/-- The dispatch of `gimp-mcp-server.py` `execute_command` once
`cmd_type` and `params` have been read: the `try` body of lines
90-113 plus the unknown-command branch of line 115.
`params["api_path"]` raising `KeyError`, calling a non-callable
(`TypeError`), unpacking non-sequences, and subscripting a non-dict
`params` are all exceptions caught by line 117; their exact messages
are environment texts modelled by short fixed strings. -/
def execSrvDispatch (ctx : CtxSrv) (cmd_type params : Value) : Value :=
  match cmd_type with
  | Value.str t =>
    if t == "call_api" then
      match params with
      | Value.dict kvs =>
        match kwGet kvs "api_path" with
        | some (Value.str api_path) =>
          match (kwGet kvs "args").getD (Value.list []),
                (kwGet kvs "kwargs").getD (Value.dict []) with
          | Value.list args, Value.dict kwargs =>
            -- lines 96-99: the walk over every segment, first included
            match resolvePathSrv ctx.root api_path with
            | Except.error part => excResp part
            | Except.ok (Value.obj _ (some sig) _) =>
              match ctx.call sig args kwargs with
              | Except.ok r => okResp (serializeResultSrv r)
              | Except.error e => excResp e
            | Except.ok _ => excResp "object is not callable"
          | _, _ => excResp "argument unpacking failed"
        | some _ => excResp "api_path is not a string"
        | none => excResp "KeyError: api_path"
      | _ => excResp "params is not subscriptable"
    else unknownResp (Value.str t)
  | other => unknownResp other

/-- `gimp-mcp-server.py` `execute_command` (lines 84-120), returning
`some` reply (which line 120 then writes) or `none` when no reply is
ever written: `command.get("type")` on line 86 runs outside the
`try`, so when the decoded request is not a dict (e.g. the JSON text
`42` or `[1]` delivered by the handler), the `AttributeError` escapes
and the dispatcher crashes unreplied. -/
def execute_command_srv (ctx : CtxSrv) (command : Value) : Option Value :=
  match command with
  | Value.dict ckvs =>
    some (execSrvDispatch ctx ((kwGet ckvs "type").getD Value.null)
      ((kwGet ckvs "params").getD (Value.dict [])))
  | _ => none

/-- Observable per-connection events of a host-side handler: a reply
written with `client.sendall`, and `client.close()`. -/
inductive NetEvent where
  | sent (reply : Value)
  | closed

/-- Outcome of `json.loads(buffer.decode("utf-8"))` on a byte buffer:
a decoded value; a `json.JSONDecodeError` (the bytes are well-formed
UTF-8 but not yet complete JSON); or a `UnicodeDecodeError` raised by
`buffer.decode("utf-8")` itself, e.g. when a multibyte character is
split across reads. -/
inductive DecodeRes where
  | ok (v : Value)
  | jsonErr
  | unicodeErr

/-- `gimp-mcp-plugin.py` `_handle_client` (lines 89-112): one
`recv(4096)`, one `json.loads(buffer.decode("utf-8"))`, one reply,
one close.  When decoding raises — a `JSONDecodeError` or a
`UnicodeDecodeError`, there is no handler for either — the exception
escapes the handler: no reply is written and `client.close()` on line
110 is never reached.  `exec` models the plugin `execute_command`,
which is total (its whole body sits in a `try`). -/
def handleClientPlugin (decode : List Nat → DecodeRes) (exec : Value → Value)
    (chunk : List Nat) : List NetEvent :=
  match decode chunk with
  | DecodeRes.ok req => [NetEvent.sent (exec req), NetEvent.closed]
  | DecodeRes.jsonErr => []
  | DecodeRes.unicodeErr => []

/-- `gimp-mcp-server.py` `handle_client` (lines 64-82): loop reading
chunks into `buffer`; `json.loads(buffer.decode("utf-8"))` has three
outcomes — success dispatches the command (via `GLib.idle_add`, whose
`execute_command` writes `some` reply, or none when it crashes) and
clears the buffer; a `json.JSONDecodeError` keeps reading
(`continue`, line 78); any other exception, e.g. a
`UnicodeDecodeError` from `buffer.decode` on a multibyte character
split across reads, reaches the outer handler (line 79) and breaks
the loop, closing the connection with no reply.  `chunks` is the
sequence of `recv(1024)` results; an empty chunk — and the end of the
sequence, when the peer has nothing further — models the peer
closing, which breaks the loop, after which line 82 closes the
connection. -/
def handleClientSrv (decode : List Nat → DecodeRes) (exec : Value → Option Value) :
    List (List Nat) → List Nat → List NetEvent
  | [], _ => [NetEvent.closed]
  | c :: cs, buf =>
    if c.isEmpty then [NetEvent.closed]
    else
      match decode (buf ++ c) with
      | DecodeRes.ok cmd =>
        match exec cmd with
        | some r => NetEvent.sent r :: handleClientSrv decode exec cs []
        | none => handleClientSrv decode exec cs []
      | DecodeRes.jsonErr => handleClientSrv decode exec cs (buf ++ c)
      | DecodeRes.unicodeErr => [NetEvent.closed]

/-- Count of protocol replies in a handler trace. -/
def sentCount (evs : List NetEvent) : Nat :=
  evs.countP (fun e => match e with | NetEvent.sent _ => true | NetEvent.closed => false)

/-- One receive step of the controller-side reply loop in
`src/gimp_mcp/server.py` `send_command`: a (nonempty) data chunk, a
receive timeout, or a socket error. -/
inductive RecvEv where
  | chunk (bs : List Nat)
  | timeout
  | sockErr (msg : String)

/-- The network outcomes one controller call can observe, for the new
variant (`src/gimp_mcp/server.py`): whether `connect` succeeds (its
failure message), whether `sendall` raises a socket error, the sequence
of receive events (the end of the list models the peer closing, i.e.
`recv` returning no data), and `json.loads` on the accumulated bytes. -/
structure Wire where
  connect : Except String Unit
  sendErr : Option String
  recvs : List RecvEv
  decode : List Nat → Option Value

/-- The `while True` receive loop of `src/gimp_mcp/server.py`
`send_command` (lines 66-78): accumulate chunks until the peer closes;
a timeout or socket error raises (messages as in the source). -/
def recvLoop : List RecvEv → List Nat → Except String (List Nat)
  | [], acc => Except.ok acc
  | RecvEv.chunk bs :: rest, acc => recvLoop rest (acc ++ bs)
  | RecvEv.timeout :: _, _ => Except.error "Timeout receiving data from GIMP."
  | RecvEv.sockErr m :: _, _ =>
    Except.error ("Socket error receiving data from GIMP: " ++ m)

/-- `src/gimp_mcp/server.py` `GimpConnection.send_command` (lines
52-96).  State is the cached socket (`self.sock`), abstracted to a
handle number.  Returns the call outcome and the new cached-socket
state.  Every path through the `try` runs the `finally` of line 95,
which `_close_socket`s (socket closed, `self.sock = None`); a failed
`connect` also leaves `self.sock = None` because `connect`'s handlers
call `_close_socket` before raising.  Exception texts follow the
source's wrapping: inner raises are re-wrapped by the outer
`except Exception` clause of line 92. -/
def send_command_new (st : Option Nat) (w : Wire) : Except String Value × Option Nat :=
  match st, w.connect with
  | none, Except.error e => (Except.error e, none)
  | _, _ =>
    match w.sendErr with
    | some e =>
      (Except.error ("Socket error communicating with GIMP: " ++ e), none)
    | none =>
      match recvLoop w.recvs [] with
      | Except.error e =>
        (Except.error ("Error communicating with GIMP: " ++ e), none)
      | Except.ok bytes =>
        if bytes.isEmpty then
          (Except.error
            "Error communicating with GIMP: No response data from GIMP (connection closed).",
           none)
        else
          match w.decode bytes with
          | some v => (Except.ok v, none)
          | none =>
            (Except.error
              "Error communicating with GIMP: Invalid JSON response from GIMP: decode failed",
             none)

/-- Network outcomes for the old variant (`server.py` lines 31-43):
connect success, `sendall` outcome, the single `recv(1024)` result,
and `json.loads`. -/
structure WireOld where
  connectOk : Bool
  sendErr : Option String
  recvResult : Except String (List Nat)
  decode : List Nat → Option Value

/-- `server.py` `GimpConnection.send_command` (lines 31-43, old
variant).  On a failed lazy `connect`, the old `connect` has already
assigned `self.sock = socket.socket(...)` and does not reset it before
raising `ConnectionError`, so a dead socket object stays cached
(modelled by `some 0`).  Once the exchange itself runs, both the
success path (line 38) and the `except` path (line 42) set
`self.sock = None`; the success path discards the socket before
`json.loads`, so even a decode failure leaves it `None`. -/
def send_command_old (st : Option Nat) (w : WireOld) : Except String Value × Option Nat :=
  match st with
  | none =>
    if w.connectOk then send_command_old_exchange w
    else
      (Except.error "Could not connect to GIMP. Ensure the MCP Server plugin is running.",
       some 0)
  | some _ => send_command_old_exchange w
where
  send_command_old_exchange (w : WireOld) : Except String Value × Option Nat :=
    match w.sendErr with
    | some e => (Except.error ("Error communicating with GIMP: " ++ e), none)
    | none =>
      match w.recvResult with
      | Except.error e => (Except.error ("Error communicating with GIMP: " ++ e), none)
      | Except.ok bytes =>
        match w.decode bytes with
        | some v => (Except.ok v, none)
        | none =>
          (Except.error "Error communicating with GIMP: JSON decode failed", none)

/-- The specification's path walk (§3, §4.2): from the current value,
look up each segment in turn; defined as a relation to state resolver
correctness against. -/
inductive WalksTo : Value → List String → Value → Prop
  | nil (v : Value) : WalksTo v [] v
  | cons {v m t : Value} {s : String} {ss : List String} :
      pyGetattr v s = some m → WalksTo m ss t → WalksTo v (s :: ss) t

/-! Concrete fixtures used by witnesses and counterexamples. -/

/-- A callable graph node: `Gimp.Image.new`, declaring parameter `width`. -/
def newFn : Value := Value.obj "function" (some ⟨"new", ["width"]⟩) []

/-- A class-like graph node: `Gimp.Image`, callable and attribute-bearing. -/
def imageNode : Value := Value.obj "GObjectMeta" (some ⟨"Image", ["self"]⟩) [("new", newFn)]

/-- A small host graph rooted at the `Gimp` namespace object. -/
def gimpGraph : Value := Value.obj "module" none [("Image", imageNode)]

/-- Signature of a callable with no `image` parameter. -/
def fooSig : FuncSig := ⟨"foo", ["a"]⟩

/-- Signature of a callable whose first declared parameter is `image`. -/
def barSig : FuncSig := ⟨"bar", ["image", "a"]⟩

/-- A live context object with handle 7. -/
def theImage : Value := Value.obj "Image" none [("id", Value.int 7)]

/-- Host graph exposing `foo` and `bar` under the root namespace. -/
def bridgeGraph : Value := Value.obj "module" none
  [("foo", Value.obj "function" (some fooSig) []),
   ("bar", Value.obj "function" (some barSig) [])]

/-- Dispatcher collaborators over `bridgeGraph`: id lookup yields
`theImage`, and every invocation returns `None`. -/
def bridgeCtx : Ctx :=
  { root := bridgeGraph, getById := fun _ => theImage,
    call := fun _ _ _ => Except.ok Value.null }

/-- Server-variant collaborators over an empty root. -/
def srvCtx0 : CtxSrv :=
  { root := Value.obj "module" none [], call := fun _ _ _ => Except.ok Value.null }

/-- A concrete decoded request of command type `a` (over the wire, the
JSON text of this dict). -/
def cmdA : Value := Value.dict [("type", Value.str "a")]

/-- A concrete decoded request of command type `b`. -/
def cmdB : Value := Value.dict [("type", Value.str "b")]

/-- A decoder under which the byte strings `[1]` and `[2]` each decode
to a complete request and every other buffer is incomplete JSON. -/
def dec12 : List Nat → DecodeRes := fun bs =>
  if bs = [1] then DecodeRes.ok cmdA
  else if bs = [2] then DecodeRes.ok cmdB
  else DecodeRes.jsonErr

/-- A decoder under which only the accumulated byte string `[3, 2]`
decodes; its proper prefixes are incomplete JSON. -/
def decAcc : List Nat → DecodeRes := fun bs =>
  if bs = [3, 2] then DecodeRes.ok cmdA else DecodeRes.jsonErr

/-- A decoder modelling a multibyte character split across reads: the
first fragment `[7]` is not valid UTF-8 (`UnicodeDecodeError`), though
the accumulated buffer `[7, 2]` would decode to a complete request. -/
def decU : List Nat → DecodeRes := fun bs =>
  if bs = [7, 2] then DecodeRes.ok cmdA
  else if bs = [7] then DecodeRes.unicodeErr
  else DecodeRes.jsonErr

/-- A concrete old-variant network outcome: everything succeeds. -/
def wOld0 : WireOld :=
  { connectOk := true, sendErr := none, recvResult := Except.ok [1],
    decode := fun _ => some Value.null }

/-- A concrete new-variant network outcome: everything succeeds. -/
def wNew0 : Wire :=
  { connect := Except.ok (), sendErr := none, recvs := [RecvEv.chunk [1]],
    decode := fun _ => some Value.null }

/-! Theorems. -/

/-- Key lookup after key removal always misses. -/
theorem kwGet_kwRemove (kvs : List (String × Value)) (k : String) :
    kwGet (kwRemove kvs k) k = none := by
  induction kvs with
  | nil => rfl
  | cons p rest ih =>
    by_cases h : p.1 == k
    · simp only [kwRemove, List.filter, h]
      exact ih
    · simp only [kwRemove, List.filter, h, Bool.not_false, kwGet, List.find?]
      exact ih

/-- C1: the claim states `serialize(v) == v` for the scalar `42`; the
code (gimp-mcp-plugin.py line 159) instead returns `str(42)`, the
string `"42"`, which is not the number `42`. -/
theorem c1_counterexample :
    serializeResult (Value.int 42) = Value.str "42" ∧
    Value.str "42" ≠ Value.int 42 :=
  ⟨rfl, fun h => nomatch h⟩

/-- C1 (amended): among the scalars, only strings pass through the
result serialization unchanged; null, booleans, and numbers are
replaced by their Python string conversion, in both host-side
variants. -/
theorem c1_scalar_serialization :
    serializeResult Value.null = Value.str "None" ∧
    serializeResult (Value.bool true) = Value.str "True" ∧
    serializeResult (Value.bool false) = Value.str "False" ∧
    serializeResult (Value.int 42) = Value.str "42" ∧
    serializeResult (Value.float "3.14") = Value.str "3.14" ∧
    (∀ s : String, serializeResult (Value.str s) = Value.str s) ∧
    (∀ s : String, serializeResultSrv (Value.str s) = Value.str s) ∧
    serializeResultSrv (Value.int 42) = Value.str "42" ∧
    serializeResultSrv Value.null = Value.str "None" :=
  ⟨rfl, rfl, rfl, rfl, rfl, fun _ => rfl, fun _ => rfl, rfl, rfl⟩

/-- C6: the claim keys handle reduction on a field named `id`; the
server variant (gimp-mcp-server.py line 105) keys on `ID`, so an
object exposing only lowercase `id = 5` is string-converted there,
not reduced to `{"id": 5}`. -/
theorem c6_counterexample :
    serializeResultSrv
        (Value.obj "Layer" none [("id", Value.int 5), ("name", Value.str "bg")]) =
      Value.str "<Layer object>" ∧
    Value.str "<Layer object>" ≠ Value.dict [("id", Value.int 5)] :=
  ⟨rfl, fun h => nomatch h⟩

/-- C6 (amended): the plugin reduces any result exposing attribute
`id` to the bare descriptor `{"id": value}` regardless of its other
attributes (and with no type tag at top level); the server variant
does the same but keyed on attribute `ID`. -/
theorem c6_handle_reduction :
    (∀ (cn : String) (sg : Option FuncSig) (attrs : List (String × Value)) (v : Value),
      kwGet attrs "id" = some v →
      serializeResult (Value.obj cn sg attrs) = Value.dict [("id", v)]) ∧
    (∀ (cn : String) (sg : Option FuncSig) (attrs : List (String × Value)) (v : Value),
      kwGet attrs "ID" = some v →
      serializeResultSrv (Value.obj cn sg attrs) = Value.dict [("id", v)]) := by
  constructor
  · intro cn sg attrs v h
    simp [serializeResult, pyHasattr, pyGetattr, pyGetattrD, h]
  · intro cn sg attrs v h
    simp [serializeResultSrv, pyHasattr, pyGetattr, pyGetattrD, h]

/-- C6 witness: a concrete object with `id = 7` (and another field)
reduces to `{"id": 7}` in the plugin, and one with `ID = 7` does in
the server variant. -/
theorem c6_witness :
    serializeResult (Value.obj "Image" none [("id", Value.int 7), ("w", Value.int 3)]) =
      Value.dict [("id", Value.int 7)] ∧
    serializeResultSrv (Value.obj "Image" none [("ID", Value.int 7), ("w", Value.int 3)]) =
      Value.dict [("id", Value.int 7)] :=
  ⟨c6_handle_reduction.1 "Image" none [("id", Value.int 7), ("w", Value.int 3)]
      (Value.int 7) rfl,
   c6_handle_reduction.2 "Image" none [("ID", Value.int 7), ("w", Value.int 3)]
      (Value.int 7) rfl⟩

/-- The attribute walk succeeds exactly on the specification's
segment-by-segment lookup relation. -/
theorem resolveSegs_ok_iff :
    ∀ (segs : List String) (root t : Value),
      resolveSegs root segs = Except.ok t ↔ WalksTo root segs t := by
  intro segs
  induction segs with
  | nil =>
    intro root t
    constructor
    · intro h
      cases h
      exact WalksTo.nil root
    · intro h
      cases h
      rfl
  | cons s ss ih =>
    intro root t
    constructor
    · intro h
      simp only [resolveSegs] at h
      cases hg : pyGetattr root s with
      | none => rw [hg] at h; cases h
      | some m =>
        rw [hg] at h
        exact WalksTo.cons hg ((ih m t).mp h)
    · intro h
      cases h with
      | cons hg hw =>
        simp only [resolveSegs]
        rw [hg]
        exact (ih _ t).mpr hw

/-- If the walk reaches `m` after `pre` and `m` has no attribute `s`,
the fold fails with exactly the segment `s`. -/
theorem resolveSegs_error_at :
    ∀ (pre : List String) (root m : Value) (s : String) (post : List String),
      WalksTo root pre m → pyGetattr m s = none →
      resolveSegs root (pre ++ s :: post) = Except.error s := by
  intro pre
  induction pre with
  | nil =>
    intro root m s post hw hnone
    cases hw
    simp only [List.nil_append, resolveSegs]
    rw [hnone]
  | cons p ps ih =>
    intro root m s post hw hnone
    cases hw with
    | cons hg hw2 =>
      simp only [List.cons_append, resolveSegs]
      rw [hg]
      exact ih _ _ _ _ hw2 hnone

/-- C2: the claim states that every resolver discards the first path
segment before walking.  The plugin resolver does; the server-variant
resolver (gimp-mcp-server.py line 98) walks every segment, first
included: on the graph `gimpGraph` (which exposes `Image`, not
`Gimp`), the path `Gimp.Image` resolves in the plugin but fails in
the server variant with an error naming `Gimp` — not the behavior the
claim predicts. -/
theorem c2_counterexample :
    resolvePath gimpGraph "Gimp.Image" = Except.ok imageNode ∧
    resolvePathSrv gimpGraph "Gimp.Image" = Except.error "Gimp" :=
  ⟨rfl, rfl⟩

/-- C2 (amended): the plugin resolver splits on `.`, discards the
first segment, and replaces the current value by attribute lookup for
each remaining segment, failing with an error naming the first
undefined segment; the server-variant resolver applies the same
lookup chain to every segment, the first included. -/
theorem c2_resolution :
    ∀ (root t : Value) (api_path first : String) (segs : List String),
      pySplitDot api_path = first :: segs →
      ((resolvePath root api_path = Except.ok t ↔ WalksTo root segs t) ∧
       (resolvePathSrv root api_path = Except.ok t ↔ WalksTo root (first :: segs) t) ∧
       (∀ (pre : List String) (s : String) (post : List String) (m : Value),
          segs = pre ++ s :: post → WalksTo root pre m → pyGetattr m s = none →
          resolvePath root api_path = Except.error s)) := by
  intro root t api_path first segs hsplit
  refine ⟨?_, ?_, ?_⟩
  · rw [resolvePath, hsplit]
    exact resolveSegs_ok_iff segs root t
  · rw [resolvePathSrv, hsplit]
    exact resolveSegs_ok_iff (first :: segs) root t
  · intro pre s post m hsegs hw hnone
    rw [resolvePath, hsplit]
    simp only [List.drop_one, List.tail_cons]
    rw [hsegs]
    exact resolveSegs_error_at pre root m s post hw hnone

/-- C2 witness: on `gimpGraph`, `Gimp.Image.new` resolves to the
`new` callable via the plugin resolver; `Image.new` resolves via the
server-variant resolver (which consumes the first segment too); and
`Gimp.Image.zzz` fails with an error naming `zzz`. -/
theorem c2_witness :
    resolvePath gimpGraph "Gimp.Image.new" = Except.ok newFn ∧
    resolvePathSrv gimpGraph "Image.new" = Except.ok newFn ∧
    resolvePath gimpGraph "Gimp.Image.zzz" = Except.error "zzz" := by
  have hwalk : WalksTo gimpGraph ["Image", "new"] newFn :=
    WalksTo.cons (show pyGetattr gimpGraph "Image" = some imageNode from rfl)
      (WalksTo.cons (show pyGetattr imageNode "new" = some newFn from rfl)
        (WalksTo.nil newFn))
  have hpre : WalksTo gimpGraph ["Image"] imageNode :=
    WalksTo.cons (show pyGetattr gimpGraph "Image" = some imageNode from rfl)
      (WalksTo.nil imageNode)
  refine ⟨?_, ?_, ?_⟩
  · exact (c2_resolution gimpGraph newFn "Gimp.Image.new" "Gimp" ["Image", "new"] rfl).1.mpr
      hwalk
  · exact (c2_resolution gimpGraph newFn "Image.new" "Image" ["new"] rfl).2.1.mpr
      (WalksTo.cons (show pyGetattr gimpGraph "Image" = some imageNode from rfl)
        (WalksTo.cons (show pyGetattr imageNode "new" = some newFn from rfl)
          (WalksTo.nil newFn)))
  · exact (c2_resolution gimpGraph newFn "Gimp.Image.zzz" "Gimp" ["Image", "zzz"] rfl).2.2
      ["Image"] "zzz" [] imageNode rfl hpre rfl

/-- C3: the claim covers every request whose kwargs contains the key
`image_id`; but the extraction guard (gimp-mcp-plugin.py line 135) is
`if kwargs.get("image_id"):`, a truthiness test, so for the value `0`
the key is not removed and reaches the callable in its keyword set —
contradicting the claimed removal. -/
theorem c3_counterexample :
    (execute_command bridgeCtx "Gimp.foo" []
        [("image_id", Value.int 0), ("a", Value.int 1)]).2 =
      [⟨fooSig, [], [("image_id", Value.int 0), ("a", Value.int 1)]⟩] ∧
    kwGet [("image_id", Value.int 0), ("a", Value.int 1)] "image_id" =
      some (Value.int 0) :=
  ⟨rfl, rfl⟩

/-- C3 (amended): for every request whose kwargs maps `image_id` to a
truthy value, the dispatcher resolves the context object by that id,
removes `image_id` from the keyword set actually passed, and
substitutes the resolved object for the first positional argument
exactly when the callable declares a parameter named `image`. -/
theorem c3_context_injection :
    ∀ (ctx : Ctx) (api_path : String) (a0 : Value) (rest : List Value)
      (kwargs : List (String × Value)) (idv : Value) (cn : String) (sig : FuncSig)
      (attrs : List (String × Value)),
      kwGet kwargs "image_id" = some idv →
      truthy idv = true →
      resolvePath ctx.root api_path = Except.ok (Value.obj cn (some sig) attrs) →
      ((execute_command ctx api_path (a0 :: rest) kwargs).2 =
         [⟨sig, (if "image" ∈ sig.params then ctx.getById idv :: rest else a0 :: rest),
           kwRemove kwargs "image_id"⟩] ∧
       kwGet (kwRemove kwargs "image_id") "image_id" = none) := by
  intro ctx api_path a0 rest kwargs idv cn sig attrs hget htr hres
  refine ⟨?_, kwGet_kwRemove kwargs _⟩
  simp only [execute_command, hget, Option.getD_some, htr, if_true, hres]
  by_cases him : "image" ∈ sig.params
  · simp only [him, if_true]
    cases hc : ctx.call sig (ctx.getById idv :: rest) (kwRemove kwargs "image_id") <;>
      simp [hc]
  · simp only [him, if_false]
    cases hc : ctx.call sig (a0 :: rest) (kwRemove kwargs "image_id") <;> simp [hc]

/-- C3 witness: with `image_id = 7` and a callable declaring `image`
first, the resolved context becomes the first positional argument and
the passed keyword set is free of `image_id`. -/
theorem c3_witness :
    (execute_command bridgeCtx "Gimp.bar" [Value.null]
        [("image_id", Value.int 7), ("a", Value.int 1)]).2 =
      [⟨barSig, [theImage], [("a", Value.int 1)]⟩] ∧
    kwGet (kwRemove [("image_id", Value.int 7), ("a", Value.int 1)] "image_id")
      "image_id" = none := by
  have h := c3_context_injection bridgeCtx "Gimp.bar" Value.null []
    [("image_id", Value.int 7), ("a", Value.int 1)] (Value.int 7) "function" barSig []
    rfl rfl rfl
  exact ⟨h.1.trans rfl, h.2⟩

/-- C9: when `image_id` maps to a falsy value, the extraction does not
fire — the keyword set reaches the callable unchanged (still holding
`image_id`), and the dispatcher is independent of the id-lookup
collaborator; when the callable declares `image`, the first positional
slot is still overwritten, but with the untouched `None`. -/
theorem c9_falsy_image_id :
    ∀ (ctx : Ctx) (g2 : Value → Value) (api_path : String) (args : List Value)
      (kwargs : List (String × Value)) (v : Value) (cn : String) (sig : FuncSig)
      (attrs : List (String × Value)),
      kwGet kwargs "image_id" = some v →
      truthy v = false →
      resolvePath ctx.root api_path = Except.ok (Value.obj cn (some sig) attrs) →
      ((execute_command ctx api_path args kwargs).2 =
         (if "image" ∈ sig.params then
            match args with
            | [] => []
            | _ :: rest => [⟨sig, Value.null :: rest, kwargs⟩]
          else [⟨sig, args, kwargs⟩]) ∧
       execute_command { root := ctx.root, getById := g2, call := ctx.call }
           api_path args kwargs =
         execute_command ctx api_path args kwargs) := by
  intro ctx g2 api_path args kwargs v cn sig attrs hget htr hres
  constructor
  · simp only [execute_command, hget, Option.getD_some, htr, Bool.false_eq_true,
      if_false, hres]
    by_cases him : "image" ∈ sig.params
    · simp only [him, if_true]
      cases args with
      | nil => rfl
      | cons a rest =>
        cases hc : ctx.call sig (Value.null :: rest) kwargs <;> simp [hc]
    · simp only [him, if_false]
      cases hc : ctx.call sig args kwargs <;> simp [hc]
  · simp only [execute_command, hget, Option.getD_some, htr, Bool.false_eq_true,
      if_false, hres]

/-- C9 witness: `image_id = 0` is passed through as an ordinary
keyword argument and the id-lookup collaborator is irrelevant. -/
theorem c9_witness :
    (execute_command bridgeCtx "Gimp.foo" [Value.int 2]
        [("image_id", Value.int 0), ("a", Value.int 1)]).2 =
      [⟨fooSig, [Value.int 2], [("image_id", Value.int 0), ("a", Value.int 1)]⟩] ∧
    execute_command
        { root := bridgeCtx.root, getById := fun _ => Value.null, call := bridgeCtx.call }
        "Gimp.foo" [Value.int 2] [("image_id", Value.int 0), ("a", Value.int 1)] =
      execute_command bridgeCtx "Gimp.foo" [Value.int 2]
        [("image_id", Value.int 0), ("a", Value.int 1)] := by
  have h := c9_falsy_image_id bridgeCtx (fun _ => Value.null) "Gimp.foo" [Value.int 2]
    [("image_id", Value.int 0), ("a", Value.int 1)] (Value.int 0) "function" fooSig []
    rfl rfl rfl
  exact ⟨h.1.trans rfl, h.2⟩

/-- C10: with a truthy `image_id`, a callable declaring `image`, and an
empty positional list, the splice `args[0] = image` raises
`IndexError`, which is caught and returned as a status-error response;
the callable is never invoked (the call log is empty). -/
theorem c10_empty_args_indexerror :
    ∀ (ctx : Ctx) (api_path : String) (kwargs : List (String × Value)) (v : Value)
      (cn : String) (sig : FuncSig) (attrs : List (String × Value)),
      kwGet kwargs "image_id" = some v → truthy v = true →
      resolvePath ctx.root api_path = Except.ok (Value.obj cn (some sig) attrs) →
      "image" ∈ sig.params →
      execute_command ctx api_path [] kwargs =
        (errResp "list assignment index out of range", []) := by
  intro ctx api_path kwargs v cn sig attrs hget htr hres him
  simp [execute_command, hget, htr, hres, him]

/-- C10 witness: concrete empty-args request with `image_id = 7`
against the `bar` callable yields the caught IndexError response and
no invocation. -/
theorem c10_witness :
    execute_command bridgeCtx "Gimp.bar" [] [("image_id", Value.int 7)] =
      (errResp "list assignment index out of range", []) :=
  c10_empty_args_indexerror bridgeCtx "Gimp.bar" [("image_id", Value.int 7)]
    (Value.int 7) "function" barSig [] rfl rfl rfl (by decide)

/-- Every dispatch outcome of the server-variant `try` body is a
success reply, an exception reply under `message`, or an
unknown-command reply. -/
theorem execSrvDispatch_shape (ctx : CtxSrv) (ct ps : Value) :
    (∃ v, execSrvDispatch ctx ct ps = okResp v) ∨
    (∃ e, execSrvDispatch ctx ct ps = excResp e) ∨
    (∃ t, execSrvDispatch ctx ct ps = unknownResp t) := by
  simp only [execSrvDispatch]
  split
  · split
    · split
      · split
        · split
          · split
            · exact Or.inr (Or.inl ⟨_, rfl⟩)
            · split
              · exact Or.inl ⟨_, rfl⟩
              · exact Or.inr (Or.inl ⟨_, rfl⟩)
            · exact Or.inr (Or.inl ⟨_, rfl⟩)
          · exact Or.inr (Or.inl ⟨_, rfl⟩)
        · exact Or.inr (Or.inl ⟨_, rfl⟩)
        · exact Or.inr (Or.inl ⟨_, rfl⟩)
      · exact Or.inr (Or.inl ⟨_, rfl⟩)
    · exact Or.inr (Or.inr ⟨_, rfl⟩)
  · exact Or.inr (Or.inr ⟨_, rfl⟩)

/-- C4: the claim says every failure message travels under the field
`error`; the server variant (gimp-mcp-server.py lines 115 and 118)
puts it under `message` — here a concrete failing request whose
response has a `message` field and no `error` field. -/
theorem c4_counterexample :
    execute_command_srv srvCtx0 (Value.dict [("type", Value.str "nope")]) =
      some (Value.dict [("status", Value.str "error"),
        ("message", Value.str "Unknown command: nope")]) ∧
    pyDictGet (Value.dict [("status", Value.str "error"),
        ("message", Value.str "Unknown command: nope")]) "error" = none ∧
    pyDictGet (Value.dict [("status", Value.str "error"),
        ("message", Value.str "Unknown command: nope")]) "message" =
      some (Value.str "Unknown command: nope") :=
  ⟨rfl, rfl, rfl⟩

/-- C4 (amended): the plugin dispatcher always returns a constructed
response — success, or status `error` with the failure message under
the field `error` plus a `traceback`; no failure escapes it.  The
server-variant dispatcher replies (success, or status `error` with
the message under the field `message`) for every request that decodes
to a dict, but a request whose JSON decodes to a non-dict crashes it
with no reply ever written, because `command.get` runs outside its
`try`. -/
theorem c4_error_responses :
    (∀ (ctx : Ctx) (api_path : String) (args : List Value)
       (kwargs : List (String × Value)),
       (∃ v, (execute_command ctx api_path args kwargs).1 = okResp v) ∨
       (∃ e, (execute_command ctx api_path args kwargs).1 = errResp e)) ∧
    (∀ e, pyDictGet (errResp e) "status" = some (Value.str "error") ∧
          pyDictGet (errResp e) "error" = some (Value.str e)) ∧
    (∀ (ctx : CtxSrv) (ckvs : List (String × Value)),
       (∃ v, execute_command_srv ctx (Value.dict ckvs) = some (okResp v)) ∨
       (∃ e, execute_command_srv ctx (Value.dict ckvs) = some (excResp e)) ∨
       (∃ t, execute_command_srv ctx (Value.dict ckvs) = some (unknownResp t))) ∧
    (∀ (ctx : CtxSrv),
       execute_command_srv ctx Value.null = none ∧
       (∀ b, execute_command_srv ctx (Value.bool b) = none) ∧
       (∀ n : Int, execute_command_srv ctx (Value.int n) = none) ∧
       (∀ lit, execute_command_srv ctx (Value.float lit) = none) ∧
       (∀ s, execute_command_srv ctx (Value.str s) = none) ∧
       (∀ xs, execute_command_srv ctx (Value.list xs) = none)) ∧
    (∀ e, pyDictGet (excResp e) "status" = some (Value.str "error") ∧
          pyDictGet (excResp e) "message" = some (Value.str e) ∧
          pyDictGet (excResp e) "error" = none) := by
  refine ⟨?_, ?_, ?_, ?_, ?_⟩
  · intro ctx api_path args kwargs
    simp only [execute_command]
    split
    · exact Or.inr ⟨_, rfl⟩
    · split
      · split
        · split
          · exact Or.inr ⟨_, rfl⟩
          · split
            · exact Or.inl ⟨_, rfl⟩
            · exact Or.inr ⟨_, rfl⟩
        · split
          · exact Or.inl ⟨_, rfl⟩
          · exact Or.inr ⟨_, rfl⟩
      · exact Or.inl ⟨_, rfl⟩
  · intro e
    exact ⟨rfl, rfl⟩
  · intro ctx ckvs
    rcases execSrvDispatch_shape ctx ((kwGet ckvs "type").getD Value.null)
        ((kwGet ckvs "params").getD (Value.dict [])) with
      ⟨v, hv⟩ | ⟨e, he⟩ | ⟨t, ht⟩
    · exact Or.inl ⟨v, by simp [execute_command_srv, hv]⟩
    · exact Or.inr (Or.inl ⟨e, by simp [execute_command_srv, he]⟩)
    · exact Or.inr (Or.inr ⟨t, by simp [execute_command_srv, ht]⟩)
  · intro ctx
    exact ⟨rfl, fun _ => rfl, fun _ => rfl, fun _ => rfl, fun _ => rfl, fun _ => rfl⟩
  · intro e
    exact ⟨rfl, rfl, rfl⟩

/-- C5: the claim says one reply per accepted connection, then a
host-side close; the server-variant handler (gimp-mcp-server.py lines
64-82) loops, so a connection delivering two requests receives two
protocol replies before the close. -/
theorem c5_counterexample :
    handleClientSrv dec12 (execute_command_srv srvCtx0) [[1], [2]] [] =
      [NetEvent.sent (unknownResp (Value.str "a")),
       NetEvent.sent (unknownResp (Value.str "b")), NetEvent.closed] ∧
    sentCount (handleClientSrv dec12 (execute_command_srv srvCtx0) [[1], [2]] []) = 2 :=
  ⟨rfl, rfl⟩

/-- C5 (amended): the plugin handler is one-shot — when its single
read decodes, exactly one reply is written and the connection closed
(and when it does not decode, nothing is written and the handler dies
without closing); the server-variant handler instead writes one reply
per decoded-and-dispatched request and keeps reading afterwards, so a
second request on the same connection receives a second protocol
reply. -/
theorem c5_one_shot :
    (∀ (decode : List Nat → DecodeRes) (ex : Value → Value) (chunk : List Nat)
       (req : Value),
       decode chunk = DecodeRes.ok req →
       handleClientPlugin decode ex chunk = [NetEvent.sent (ex req), NetEvent.closed]) ∧
    (∀ (decode : List Nat → DecodeRes) (ex : Value → Value) (chunk : List Nat),
       decode chunk = DecodeRes.jsonErr ∨ decode chunk = DecodeRes.unicodeErr →
       handleClientPlugin decode ex chunk = []) ∧
    (∀ (decode : List Nat → DecodeRes) (ex : Value → Option Value) (c : List Nat)
       (cs : List (List Nat)) (buf : List Nat) (cmd r : Value),
       c ≠ [] → decode (buf ++ c) = DecodeRes.ok cmd → ex cmd = some r →
       handleClientSrv decode ex (c :: cs) buf =
         NetEvent.sent r :: handleClientSrv decode ex cs []) := by
  refine ⟨?_, ?_, ?_⟩
  · intro decode ex chunk req h
    simp [handleClientPlugin, h]
  · intro decode ex chunk h
    cases h with
    | inl h => simp [handleClientPlugin, h]
    | inr h => simp [handleClientPlugin, h]
  · intro decode ex c cs buf cmd r hc h hex
    simp [handleClientSrv, List.isEmpty_iff, hc, h, hex]

/-- C5 witness: a decoded single read yields one reply then close in
the plugin handler; in the server-variant handler a decoded request
is answered (here by the real server dispatcher) and the loop
continues with the remaining input. -/
theorem c5_witness :
    handleClientPlugin dec12 (fun v => v) [1] =
      [NetEvent.sent cmdA, NetEvent.closed] ∧
    handleClientSrv dec12 (execute_command_srv srvCtx0) [[1], [2]] [] =
      NetEvent.sent (unknownResp (Value.str "a")) ::
        handleClientSrv dec12 (execute_command_srv srvCtx0) [[2]] [] :=
  ⟨c5_one_shot.1 dec12 (fun v => v) [1] cmdA rfl,
   c5_one_shot.2.2 dec12 (execute_command_srv srvCtx0) [1] [[2]] [] cmdA
     (unknownResp (Value.str "a")) (by decide) rfl rfl⟩

/-- C7: the claim says every decode failure on the partial buffer is
treated as "need more bytes"; but only `json.JSONDecodeError` hits the
`continue` — a `UnicodeDecodeError` from `buffer.decode("utf-8")` on a
multibyte character split across reads reaches the outer handler,
which breaks the loop and closes the connection unreplied, even
though the accumulated buffer would have decoded. -/
theorem c7_counterexample :
    handleClientSrv decU (execute_command_srv srvCtx0) [[7], [2]] [] =
      [NetEvent.closed] ∧
    decU [7] = DecodeRes.unicodeErr ∧
    decU [7, 2] = DecodeRes.ok cmdA ∧
    sentCount (handleClientSrv decU (execute_command_srv srvCtx0) [[7], [2]] []) = 0 :=
  ⟨rfl, rfl, rfl, rfl⟩

/-- C7 (amended): in the whole-buffer handler, a JSON decode failure
(`json.JSONDecodeError`) on the accumulated buffer is "need more
bytes" — the loop continues with the buffer kept — and the request is
dispatched (with its reply, when the dispatcher writes one) once a
decode attempt on the accumulation succeeds; but a UTF-8 decode
failure of the byte buffer (`UnicodeDecodeError`, e.g. a multibyte
character split across reads) is terminal: the loop breaks and the
connection is closed with no reply. -/
theorem c7_whole_buffer :
    (∀ (decode : List Nat → DecodeRes) (ex : Value → Option Value) (c : List Nat)
       (cs : List (List Nat)) (buf : List Nat),
       c ≠ [] → decode (buf ++ c) = DecodeRes.jsonErr →
       handleClientSrv decode ex (c :: cs) buf =
         handleClientSrv decode ex cs (buf ++ c)) ∧
    (∀ (decode : List Nat → DecodeRes) (ex : Value → Option Value) (c1 c2 : List Nat)
       (cmd r : Value),
       c1 ≠ [] → c2 ≠ [] → decode c1 = DecodeRes.jsonErr →
       decode (c1 ++ c2) = DecodeRes.ok cmd → ex cmd = some r →
       handleClientSrv decode ex [c1, c2] [] =
         [NetEvent.sent r, NetEvent.closed]) ∧
    (∀ (decode : List Nat → DecodeRes) (ex : Value → Option Value) (c : List Nat)
       (cs : List (List Nat)) (buf : List Nat),
       c ≠ [] → decode (buf ++ c) = DecodeRes.unicodeErr →
       handleClientSrv decode ex (c :: cs) buf = [NetEvent.closed]) := by
  refine ⟨?_, ?_, ?_⟩
  · intro decode ex c cs buf hc h
    simp [handleClientSrv, List.isEmpty_iff, hc, h]
  · intro decode ex c1 c2 cmd r h1 h2 hd1 hd2 hex
    simp [handleClientSrv, List.isEmpty_iff, h1, h2, hd1, hd2, hex]
  · intro decode ex c cs buf hc h
    simp [handleClientSrv, List.isEmpty_iff, hc, h]

/-- C7 witness: a JSON-incomplete first fragment is kept and the
accumulated two fragments decode and dispatch exactly one reply
(written by the real server dispatcher); a UTF-8-broken first
fragment closes the connection at once. -/
theorem c7_witness :
    handleClientSrv decAcc (execute_command_srv srvCtx0) [[3], [2]] [] =
      [NetEvent.sent (unknownResp (Value.str "a")), NetEvent.closed] ∧
    handleClientSrv decAcc (execute_command_srv srvCtx0) [[3], [2]] [] =
      handleClientSrv decAcc (execute_command_srv srvCtx0) [[2]] [3] ∧
    handleClientSrv decU (execute_command_srv srvCtx0) [[7]] [] = [NetEvent.closed] :=
  ⟨c7_whole_buffer.2.1 decAcc (execute_command_srv srvCtx0) [3] [2] cmdA
      (unknownResp (Value.str "a")) (by decide) (by decide) rfl rfl rfl,
   c7_whole_buffer.1 decAcc (execute_command_srv srvCtx0) [3] [[2]] [] (by decide) rfl,
   c7_whole_buffer.2.2 decU (execute_command_srv srvCtx0) [7] [] [] (by decide) rfl⟩

/-- C8: after any exchange by the controller-side connection manager
— success, communication error, or timeout — the cached socket is
left `None`: unconditionally in the new variant (its `finally` closes,
and even a failed `connect` has reset it), and in the old variant
whenever the exchange ran at all (a socket was cached or the lazy
connect succeeded). -/
theorem c8_connection_reset :
    (∀ (st : Option Nat) (w : Wire), (send_command_new st w).2 = none) ∧
    (∀ (st : Option Nat) (w : WireOld), st ≠ none ∨ w.connectOk = true →
       (send_command_old st w).2 = none) := by
  constructor
  · intro st w
    simp only [send_command_new]
    split
    · rfl
    · split
      · rfl
      · split
        · rfl
        · split
          · rfl
          · split
            · rfl
            · rfl
  · intro st w h
    cases st with
    | some s =>
      simp only [send_command_old]
      unfold send_command_old.send_command_old_exchange
      split
      · rfl
      · split
        · rfl
        · split
          · rfl
          · rfl
    | none =>
      have hok : w.connectOk = true := by
        cases h with
        | inl h2 => exact absurd rfl h2
        | inr h2 => exact h2
      simp only [send_command_old, hok, if_true]
      unfold send_command_old.send_command_old_exchange
      split
      · rfl
      · split
        · rfl
        · split
          · rfl
          · rfl

/-- C8 witness: a concrete successful exchange in each variant leaves
no cached socket. -/
theorem c8_witness :
    (send_command_old (some 5) wOld0).2 = none ∧
    (send_command_new none wNew0).2 = none :=
  ⟨c8_connection_reset.2 (some 5) wOld0 (Or.inl (by simp)),
   c8_connection_reset.1 none wNew0⟩
